import Mathlib

/-!
Verification of the security-scanner core of the phishing-detection
repository: the per-probe score calculators (src/security_scanners/ssl_scanner.py,
src/security_scanners/headers_scanner.py), the orchestrator's failure wrappers
(src/security_scanners/comprehensive_scanner.py) and the aggregating scorer
(src/security_scanners/security_scorer.py), embedded shallowly.

Python dictionaries that represent issues and probe results are embedded as
structures of optional fields (a `none` field models an absent key); a results
mapping is an insertion-ordered association list; floats are idealized as
rationals with Python's round-half-to-even rounding made explicit.
-/

/-- An issue dictionary, as produced by the scanners.  Each field models a
possibly-absent dictionary key. -/
structure Issue where
  severity : Option String := none
  message : Option String := none
  recommendation : Option String := none
  fix : Option String := none
  type : Option String := none
  scanner : Option String := none
deriving DecidableEq, Repr

/-- A probe-result dictionary as the orchestrator stores it under
results['scans'][name]: only the keys the scorer consumes are modelled. -/
structure ProbeResult where
  error : Option String := none
  score : Option ℚ := none
  grade : Option String := none
  issues : Option (List Issue) := none
deriving DecidableEq, Repr

/-- The orchestrator's results['scans'] mapping: probe name to result,
in insertion order. -/
abbrev ScanResults := List (String × ProbeResult)

/-- Dictionary key lookup on the association list. -/
def lookupRes : ScanResults → String → Option ProbeResult
  | [], _ => none
  | (k2, v) :: rest, k => if k2 = k then some v else lookupRes rest k

/-- issue.get('severity', 'low') from the Python source. -/
def sevString (i : Issue) : String := i.severity.getD "low"

/-! ## SSLScanner._calculate_score (src/security_scanners/ssl_scanner.py lines 278-314) -/

/-- Per-issue deduction of the SSL scanner's if/elif severity chain
(critical 30, high 15, medium 10, low 5, anything else 0). -/
def sslDeduct (sev : String) : Int :=
  if sev = "critical" then 30
  else if sev = "high" then 15
  else if sev = "medium" then 10
  else if sev = "low" then 5
  else 0

/-- SSLScanner._calculate_score: start at 100, deduct per issue, add 5 when
TLSv1.3 is supported, then clamp once with max(0, min(100, score)). -/
def ssl_calculate_score (issues : List Issue) (tls13 : Bool) : Int :=
  let s := issues.foldl (fun acc i => acc - sslDeduct (sevString i)) 100
  let s2 := if tls13 then s + 5 else s
  max 0 (min 100 s2)

/-- SSLScanner._calculate_score's grade thresholds. -/
def ssl_grade (score : Int) : String :=
  if score ≥ 95 then "A+"
  else if score ≥ 85 then "A"
  else if score ≥ 75 then "B"
  else if score ≥ 65 then "C"
  else if score ≥ 50 then "D"
  else "F"

/-! ## SecurityHeadersScanner._calculate_score (src/security_scanners/headers_scanner.py lines 291-323) -/

/-- Per-issue deduction of the headers scanner's if/elif severity chain
(critical 25, high 15, medium 10, low 5, anything else 0). -/
def headersDeduct (sev : String) : Int :=
  if sev = "critical" then 25
  else if sev = "high" then 15
  else if sev = "medium" then 10
  else if sev = "low" then 5
  else 0

/-- SecurityHeadersScanner._calculate_score: start at 100, deduct per issue,
clamp once with max(0, min(100, score)); there is no bonus term. -/
def headers_calculate_score (issues : List Issue) : Int :=
  let s := issues.foldl (fun acc i => acc - headersDeduct (sevString i)) 100
  max 0 (min 100 s)

/-- SecurityHeadersScanner._calculate_score's grade thresholds. -/
def headers_grade (score : Int) : String :=
  if score ≥ 95 then "A+"
  else if score ≥ 85 then "A"
  else if score ≥ 75 then "B"
  else if score ≥ 65 then "C"
  else if score ≥ 50 then "D"
  else "F"

/-- The transport score computed the way the spec words it: deduct, clamp to
[0,100], then add the TLS1.3 bonus, then clamp a second time. -/
def spec_transport_score (issues : List Issue) (tls13 : Bool) : Int :=
  let d := max 0 (min 100 (100 - (issues.map (fun i => sslDeduct (sevString i))).sum))
  max 0 (min 100 (d + (if tls13 then 5 else 0)))

/-- Folding subtraction over a list equals subtracting the mapped sum. -/
theorem foldl_sub_eq_sub_sum (f : Issue → Int) :
    ∀ (l : List Issue) (a : Int),
      l.foldl (fun acc i => acc - f i) a = a - (l.map f).sum := by
  intro l
  induction l with
  | nil => intro a; simp
  | cons x xs ih =>
      intro a
      simp only [List.foldl_cons, List.map_cons, List.sum_cons]
      rw [ih]
      ring

/-- A critically-severe issue, used as concrete test data. -/
def critIssue : Issue := { severity := some "critical" }

example : ssl_calculate_score [critIssue, critIssue, critIssue, critIssue] true = 0 := by decide
example : spec_transport_score [critIssue, critIssue, critIssue, critIssue] true = 5 := by decide

/-- C4 counterexample: with four critical issues and TLS1.3 supported, the code
(one clamp, applied after the bonus) yields 0, while the claimed clamp-bonus-clamp
order would yield 5, so the claim is false at this input. -/
theorem c4_clamp_order_counterexample :
    ssl_calculate_score [critIssue, critIssue, critIssue, critIssue] true = 0 ∧
      spec_transport_score [critIssue, critIssue, critIssue, critIssue] true = 5 ∧
      ssl_calculate_score [critIssue, critIssue, critIssue, critIssue] true ≠
        spec_transport_score [critIssue, critIssue, critIssue, critIssue] true := by
  refine ⟨by decide, by decide, by decide⟩

/-- C4 (amended): the TransportProbe's score starts at 100, deducts per issue
by severity (critical 30, high 15, medium 10, low 5), adds the +5 TLS1.3 bonus,
and clamps to [0,100] exactly once, after the bonus — there is no clamp between
the deductions and the bonus. -/
theorem c4_transport_score_single_clamp (issues : List Issue) (tls13 : Bool) :
    ssl_calculate_score issues tls13 =
      max 0 (min 100 (100 - (issues.map (fun i => sslDeduct (sevString i))).sum +
        (if tls13 then 5 else 0))) := by
  unfold ssl_calculate_score
  rw [foldl_sub_eq_sub_sum]
  cases tls13 <;> simp

/-- C3 counterexample: on a single critical issue the HeaderProbe scores 75
(deduction 25) while the TransportProbe formula without its bonus scores 70
(deduction 30), so the two probes' per-severity deductions are not equal and
the claimed identical formula fails. -/
theorem c3_headers_deduction_counterexample :
    headers_calculate_score [critIssue] = 75 ∧
      ssl_calculate_score [critIssue] false = 70 ∧
      headers_calculate_score [critIssue] ≠ ssl_calculate_score [critIssue] false := by
  refine ⟨by decide, by decide, by decide⟩

/-- C3 (amended): the HeaderProbe's score follows the same shape as the
TransportProbe's without the TLS1.3 bonus — start at 100, deduct per issue by
severity, clamp to [0,100] — with identical deductions for high (15),
medium (10), low (5) and unknown severities (0) and identical grade thresholds
(95 A+, 85 A, 75 B, 65 C, 50 D, else F); but the critical deduction differs:
25 for the HeaderProbe against 30 for the TransportProbe. -/
theorem c3_headers_score_formula (issues : List Issue) :
    headers_calculate_score issues =
      max 0 (min 100 (100 - (issues.map (fun i => headersDeduct (sevString i))).sum)) ∧
      (∀ s : Int, headers_grade s = ssl_grade s) ∧
      headersDeduct "critical" = 25 ∧ sslDeduct "critical" = 30 ∧
      headersDeduct "high" = sslDeduct "high" ∧
      headersDeduct "medium" = sslDeduct "medium" ∧
      headersDeduct "low" = sslDeduct "low" ∧
      headersDeduct "unknown" = sslDeduct "unknown" := by
  refine ⟨?_, fun s => rfl, by decide, by decide, by decide, by decide, by decide, by decide⟩
  unfold headers_calculate_score
  rw [foldl_sub_eq_sub_sum]

/-! ## ComprehensiveScanner (src/security_scanners/comprehensive_scanner.py) -/

/-- Python's int() applied to a rational: truncation toward zero. -/
def pyInt (q : ℚ) : Int := if q < 0 then ⌈q⌉ else ⌊q⌋

/-- ComprehensiveScanner._run_phishing_scan line 200: score = int((1 - probability[1]) * 100),
where p is the classifier's probability of the malicious class. -/
def phishing_score (p : ℚ) : Int := pyInt ((1 - p) * 100)

/-- C9 counterexample: at p = 1/1000, (1 - p) * 100 = 99.9; the code truncates
to 99 while rounding to the nearest integer gives 100, so the claimed
score = round((1 - p) * 100) is false at this probability. -/
theorem c9_phishing_score_counterexample :
    phishing_score (1/1000) = 99 ∧
      round (((1 : ℚ) - 1/1000) * 100) = 100 ∧
      (phishing_score (1/1000) : Int) ≠ round (((1 : ℚ) - 1/1000) * 100) := by
  have h1 : phishing_score (1/1000) = 99 := by
    unfold phishing_score pyInt
    rw [if_neg (by norm_num), Int.floor_eq_iff]
    norm_num
  have h2 : round (((1 : ℚ) - 1/1000) * 100) = 100 := by
    rw [round_eq, Int.floor_eq_iff]
    norm_num
  exact ⟨h1, h2, by rw [h1, h2]; decide⟩

/-- C9 (amended): for every probability p of the malicious class with
0 ≤ p ≤ 1, the PhishingProbe's score is (1 - p) * 100 truncated by int(),
which on this nonnegative range is the floor, not the nearest integer. -/
theorem c9_phishing_score_floor (p : ℚ) (h0 : 0 ≤ p) (h1 : p ≤ 1) :
    phishing_score p = ⌊(1 - p) * 100⌋ := by
  unfold phishing_score pyInt
  rw [if_neg]
  push_neg
  nlinarith

/-- Witness for c9_phishing_score_floor at p = 3/4. -/
theorem c9_phishing_score_floor_witness : phishing_score (3/4) = ⌊((1 : ℚ) - 3/4) * 100⌋ :=
  c9_phishing_score_floor (3/4) (by norm_num) (by norm_num)

/-! ## The orchestrator's error-result constructors
(src/security_scanners/comprehensive_scanner.py) -/

/-- ComprehensiveScanner.scan lines 100-105: the substitute result stored when
a probe's future times out or raises — error, score 0, grade F, no issues key. -/
def collect_error_result (msg : String) : ProbeResult :=
  { error := some msg, score := some 0, grade := some "F" }

/-- ComprehensiveScanner._run_ssl_scan except branch (lines 124-134). -/
def ssl_scan_error_result (msg : String) : ProbeResult :=
  { error := some msg, score := some 0, grade := some "F"
  , issues := some [{ severity := some "critical"
                    , message := some ("SSL scan failed: " ++ msg) }] }

/-- ComprehensiveScanner._run_headers_scan except branch (lines 140-150). -/
def headers_scan_error_result (msg : String) : ProbeResult :=
  { error := some msg, score := some 0, grade := some "F"
  , issues := some [{ severity := some "critical"
                    , message := some ("Headers scan failed: " ++ msg) }] }

/-- ComprehensiveScanner._run_vulnerability_scan except branch (lines 156-166). -/
def vulnerability_scan_error_result (msg : String) : ProbeResult :=
  { error := some msg, score := some 0, grade := some "F"
  , issues := some [{ severity := some "critical"
                    , message := some ("Vulnerability scan failed: " ++ msg) }] }

/-- ComprehensiveScanner._run_phishing_scan lines 171-177: the result returned
when the phishing module is not importable or the model is not loaded. -/
def phishing_unavailable_result : ProbeResult :=
  { error := some "Phishing detection not available", score := some 50
  , grade := some "C", issues := some [] }

/-- ComprehensiveScanner._run_phishing_scan except branch (lines 227-237). -/
def phishing_scan_error_result (msg : String) : ProbeResult :=
  { error := some msg, score := some 50, grade := some "C"
  , issues := some [{ severity := some "medium"
                    , message := some ("Phishing scan failed: " ++ msg) }] }

/-- C1 counterexample: the result the phishing probe produces on internal
failure has its error field set but score 50 and grade C, not score 0 and
grade F, and its only issue is medium, not critical — so the claim fails on
this error-producing path. -/
theorem c1_error_result_counterexample :
    (phishing_scan_error_result "boom").error = some "boom" ∧
      (phishing_scan_error_result "boom").score ≠ some 0 ∧
      (phishing_scan_error_result "boom").grade ≠ some "F" ∧
      (phishing_scan_error_result "boom").issues =
        some [{ severity := some "medium"
              , message := some "Phishing scan failed: boom" }] := by
  refine ⟨rfl, by decide, by decide, rfl⟩

/-- C1 (amended): error-flagged results are produced on five paths with three
distinct shapes.  The ssl, headers and vulnerability wrappers return error set,
score 0, grade F and one synthetic critical issue naming the failure cause; the
orchestrator's substitute for a timed-out or raising future returns error set,
score 0, grade F but no issues at all; and the phishing probe's two error paths
return error set with score 50 and grade C — empty issues when the classifier
is unavailable, one medium issue on internal failure. -/
theorem c1_error_result_shapes (msg : String) :
    (ssl_scan_error_result msg).error = some msg ∧
      (ssl_scan_error_result msg).score = some 0 ∧
      (ssl_scan_error_result msg).grade = some "F" ∧
      (ssl_scan_error_result msg).issues =
        some [{ severity := some "critical"
              , message := some ("SSL scan failed: " ++ msg) }] ∧
      (headers_scan_error_result msg).error = some msg ∧
      (headers_scan_error_result msg).score = some 0 ∧
      (headers_scan_error_result msg).grade = some "F" ∧
      (headers_scan_error_result msg).issues =
        some [{ severity := some "critical"
              , message := some ("Headers scan failed: " ++ msg) }] ∧
      (vulnerability_scan_error_result msg).error = some msg ∧
      (vulnerability_scan_error_result msg).score = some 0 ∧
      (vulnerability_scan_error_result msg).grade = some "F" ∧
      (vulnerability_scan_error_result msg).issues =
        some [{ severity := some "critical"
              , message := some ("Vulnerability scan failed: " ++ msg) }] ∧
      (collect_error_result msg).error = some msg ∧
      (collect_error_result msg).score = some 0 ∧
      (collect_error_result msg).grade = some "F" ∧
      (collect_error_result msg).issues = none ∧
      (phishing_scan_error_result msg).error = some msg ∧
      (phishing_scan_error_result msg).score = some 50 ∧
      (phishing_scan_error_result msg).grade = some "C" ∧
      (phishing_scan_error_result msg).issues =
        some [{ severity := some "medium"
              , message := some ("Phishing scan failed: " ++ msg) }] ∧
      phishing_unavailable_result.error = some "Phishing detection not available" ∧
      phishing_unavailable_result.score = some 50 ∧
      phishing_unavailable_result.grade = some "C" ∧
      phishing_unavailable_result.issues = some [] := by
  repeat constructor

/-- C8 counterexample: when the classifier is unavailable the phishing probe
returns a result whose error field IS set (to 'Phishing detection not
available'), contradicting the claim that error is unset on this path. -/
theorem c8_unavailable_error_set_counterexample :
    phishing_unavailable_result.error ≠ none ∧
      phishing_unavailable_result.error = some "Phishing detection not available" := by
  refine ⟨by decide, rfl⟩

/-- C8 (amended): when the phishing classifier is unavailable the probe
returns a neutral result with score 50, grade C and empty issues, but with the
error field set to 'Phishing detection not available'; the scan as a whole is
not aborted since a well-formed ProbeResult is returned. -/
theorem c8_unavailable_neutral_result :
    phishing_unavailable_result.score = some 50 ∧
      phishing_unavailable_result.grade = some "C" ∧
      phishing_unavailable_result.issues = some [] ∧
      phishing_unavailable_result.error = some "Phishing detection not available" := by
  refine ⟨rfl, rfl, rfl, rfl⟩

/-! ## SecurityScorer issue aggregation (src/security_scanners/security_scorer.py lines 106-137) -/

/-- severity_order.get(x.get('severity', 'low'), 4): critical 0, high 1,
medium 2, low 3, anything unrecognized 4. -/
def sevRank (i : Issue) : Nat :=
  let s := sevString i
  if s = "critical" then 0
  else if s = "high" then 1
  else if s = "medium" then 2
  else if s = "low" then 3
  else 4

/-- The flattening loop of SecurityScorer._aggregate_issues: every probe's
issue list in mapping order, each issue copied with its scanner key set to the
source probe's name (overwriting any existing scanner key, as the Python copy
plus assignment does). -/
def tagged_issues (m : ScanResults) : List Issue :=
  m.flatMap (fun pr =>
    match pr.2.issues with
    | some is => is.map (fun i => { i with scanner := some pr.1 })
    | none => [])

/-- SecurityScorer._aggregate_issues: the tagged flattening, stably sorted by
severity rank (Python's list.sort is stable; insertion sort with a
non-strict comparison realizes the same stable order). -/
def aggregate_issues (m : ScanResults) : List Issue :=
  List.insertionSort (fun x y => sevRank x ≤ sevRank y) (tagged_issues m)

/-- The all_issues key of SecurityScorer.calculate_overall_score's result. -/
def all_issues (m : ScanResults) : List Issue := aggregate_issues m

/-- The total_issues key: len(all_issues). -/
def total_issues (m : ScanResults) : Nat := (all_issues m).length

/-- The counts dictionary of SecurityScorer._count_by_severity. -/
structure SevCounts where
  critical : Nat
  high : Nat
  medium : Nat
  low : Nat
deriving DecidableEq, Repr

/-- One iteration of _count_by_severity's loop: increment the bucket when the
severity (defaulted to 'low') is one of the four keys, else leave the counts
unchanged. -/
def bumpSev (c : SevCounts) (i : Issue) : SevCounts :=
  let s := sevString i
  if s = "critical" then { c with critical := c.critical + 1 }
  else if s = "high" then { c with high := c.high + 1 }
  else if s = "medium" then { c with medium := c.medium + 1 }
  else if s = "low" then { c with low := c.low + 1 }
  else c

/-- SecurityScorer._count_by_severity. -/
def count_by_severity (issues : List Issue) : SevCounts :=
  issues.foldl bumpSev ⟨0, 0, 0, 0⟩

/-- The issues_by_severity key of the scorer's result. -/
def issues_by_severity (m : ScanResults) : SevCounts :=
  count_by_severity (all_issues m)

/-- The sum of the four severity buckets. -/
def sumSev (c : SevCounts) : Nat := c.critical + c.high + c.medium + c.low

/-- Whether an issue's (defaulted) severity is one of the four counted keys. -/
def recognizedSev (i : Issue) : Bool :=
  sevString i = "critical" ∨ sevString i = "high" ∨
    sevString i = "medium" ∨ sevString i = "low"

/-- A single _count_by_severity iteration adds one to the bucket sum exactly
when the issue's defaulted severity is a recognized key. -/
theorem sumSev_bumpSev (c : SevCounts) (x : Issue) :
    sumSev (bumpSev c x) = sumSev c + (if recognizedSev x then 1 else 0) := by
  unfold bumpSev recognizedSev sumSev
  by_cases hc : sevString x = "critical" <;>
    by_cases hh : sevString x = "high" <;>
      by_cases hm : sevString x = "medium" <;>
        by_cases hl : sevString x = "low" <;>
          simp [hc, hh, hm, hl] <;> omega

/-- Generalized loop invariant of _count_by_severity: starting from any
accumulator, the final bucket sum is the initial one plus the number of
recognized-severity issues seen. -/
theorem sumSev_foldl_bumpSev :
    ∀ (l : List Issue) (c : SevCounts),
      sumSev (l.foldl bumpSev c) = sumSev c + l.countP recognizedSev := by
  intro l
  induction l with
  | nil => intro c; simp
  | cons x xs ih =>
      intro c
      rw [List.foldl_cons, List.countP_cons, ih, sumSev_bumpSev]
      by_cases hx : recognizedSev x <;> simp [hx] <;> omega

/-- Filtering one severity-rank class through an ordered insert either
prepends the inserted issue (when it has that rank) or leaves the class
untouched: inserting never moves an issue past one of equal rank. -/
theorem filter_orderedInsert_sevRank (k : Nat) (a : Issue) :
    ∀ l : List Issue,
      (List.orderedInsert (fun x y => sevRank x ≤ sevRank y) a l).filter
          (fun i => sevRank i == k) =
        (if sevRank a == k then a :: l.filter (fun i => sevRank i == k)
          else l.filter (fun i => sevRank i == k)) := by
  intro l
  induction l with
  | nil =>
      simp only [List.orderedInsert, List.filter_cons]
  | cons b xs ih =>
      simp only [List.orderedInsert]
      by_cases hab : sevRank a ≤ sevRank b
      · rw [if_pos hab]
        by_cases hak : sevRank a == k <;> by_cases hbk : sevRank b == k <;>
          simp [List.filter_cons, hak, hbk]
      · rw [if_neg hab]
        rw [List.filter_cons, List.filter_cons]
        by_cases hak : sevRank a == k <;> by_cases hbk : sevRank b == k
        · exfalso
          have h1 : sevRank a = k := by simpa using hak
          have h2 : sevRank b = k := by simpa using hbk
          omega
        · simp only [hak, hbk, ih, if_pos, Bool.false_eq_true, if_false]
        · simp only [hak, hbk, ih, Bool.false_eq_true, if_false, if_true]
        · simp only [hak, hbk, ih, Bool.false_eq_true, if_false]

/-- Stability of the aggregation sort: for each rank class, the sorted list
restricted to that class is exactly the input restricted to that class, so
issues of equal severity keep their relative order. -/
theorem filter_insertionSort_sevRank (k : Nat) :
    ∀ l : List Issue,
      (List.insertionSort (fun x y => sevRank x ≤ sevRank y) l).filter
          (fun i => sevRank i == k) = l.filter (fun i => sevRank i == k) := by
  intro l
  induction l with
  | nil => rfl
  | cons x xs ih =>
      simp only [List.insertionSort]
      rw [filter_orderedInsert_sevRank, List.filter_cons, ih]

/-- C7 (confirmed): all_issues is a permutation of the tagged flattening of
every probe's issues, it is sorted so severity ranks never decrease (critical,
then high, then medium, then low, unknown severities last — hence no high
issue before a critical one and no low before a medium), and for every rank
the subsequence of that rank equals the corresponding subsequence of the
flattened input, i.e. equal-severity issues keep their relative order. -/
theorem c7_all_issues_stable_severity_sort (m : ScanResults) :
    (all_issues m).Perm (tagged_issues m) ∧
      (all_issues m).Pairwise (fun x y => sevRank x ≤ sevRank y) ∧
      ∀ k : Nat,
        (all_issues m).filter (fun i => sevRank i == k) =
          (tagged_issues m).filter (fun i => sevRank i == k) := by
  refine ⟨List.perm_insertionSort _ _, ?_, fun k => filter_insertionSort_sevRank k _⟩
  haveI : IsTotal Issue (fun x y => sevRank x ≤ sevRank y) :=
    ⟨fun a b => Nat.le_total (sevRank a) (sevRank b)⟩
  haveI : IsTrans Issue (fun x y => sevRank x ≤ sevRank y) :=
    ⟨fun _ _ _ hab hbc => Nat.le_trans hab hbc⟩
  exact List.sorted_insertionSort _ _

/-- A results map whose single probe carries one issue with the unrecognized
severity string 'info'. -/
def infoSeverityMap : ScanResults :=
  [("ssl", { score := some 80, grade := some "A", error := none
           , issues := some [{ severity := some "info" }] })]

/-- C6 counterexample: with one issue of severity 'info', total_issues is 1 but
every issues_by_severity bucket is 0, so the four values sum to 0 ≠ 1 and the
claimed invariant fails for severities outside the four recognized keys. -/
theorem c6_severity_sum_counterexample :
    total_issues infoSeverityMap = 1 ∧
      sumSev (issues_by_severity infoSeverityMap) = 0 ∧
      sumSev (issues_by_severity infoSeverityMap) ≠ total_issues infoSeverityMap := by
  refine ⟨by decide, by decide, by decide⟩

/-- C6 (amended): for every results map, the four issues_by_severity values
sum to total_issues minus the number of aggregated issues whose severity
string is outside the recognized set (an absent severity defaults to low and
is counted); equivalently the bucket sum plus the unrecognized-issue count
equals total_issues, so the claimed equality holds exactly when every issue's
severity is absent or one of critical, high, medium, low. -/
theorem c6_severity_sum_accounting (m : ScanResults) :
    sumSev (issues_by_severity m) +
        (all_issues m).countP (fun i => !(recognizedSev i)) = total_issues m := by
  have key : ∀ l : List Issue,
      l.countP recognizedSev + l.countP (fun i => !(recognizedSev i)) = l.length := by
    intro l
    induction l with
    | nil => simp
    | cons x xs ih =>
        by_cases hx : recognizedSev x <;>
          simp [List.countP_cons, hx] <;> omega
  unfold issues_by_severity total_issues count_by_severity
  rw [sumSev_foldl_bumpSev]
  have h := key (all_issues m)
  simp [sumSev]
  omega

/-! ## SecurityScorer._generate_summary (src/security_scanners/security_scorer.py lines 200-212) -/

/-- The scanners_run list: the four canonical names, kept when they are keys
of the results mapping. -/
def scanners_run (m : ScanResults) : List String :=
  ["ssl", "headers", "vulnerabilities", "phishing"].filter
    (fun t => (lookupRes m t).isSome)

/-- The scan_complete key: len(scanners_run) == 4. -/
def scan_complete (m : ScanResults) : Bool := (scanners_run m).length == 4

/-- The completeness condition the claim states: every probe name requested in
probe_set appears as a key of the results mapping. -/
def spec_scan_complete (probe_set : List String) (m : ScanResults) : Prop :=
  ∀ t ∈ probe_set, (lookupRes m t).isSome

/-- A healthy transport result used as concrete test data. -/
def okSslResult : ProbeResult :=
  { score := some 95, grade := some "A+", issues := some [] }

/-- A healthy headers result used as concrete test data. -/
def okHeadersResult : ProbeResult :=
  { score := some 90, grade := some "A", issues := some [] }

/-- The results mapping of a quick_scan (scan_types = ['ssl', 'headers'],
comprehensive_scanner.py line 249) in which both requested probes returned. -/
def quickScanResults : ScanResults :=
  [("ssl", okSslResult), ("headers", okHeadersResult)]

/-- C5 counterexample: a quick scan requesting only ssl and headers that
receives a result for both satisfies the claimed condition (every requested
probe is present) yet scan_complete is false, because the code compares
len(scanners_run) against the constant 4, not against the requested set. -/
theorem c5_scan_complete_counterexample :
    spec_scan_complete ["ssl", "headers"] quickScanResults ∧
      scan_complete quickScanResults = false := by
  refine ⟨?_, by decide⟩
  intro t ht
  fin_cases ht <;> decide

/-- C5 (amended): scan_complete is true iff all four canonical probe names
appear as keys of the results mapping, regardless of which probes were
requested; a scan over a reduced probe_set therefore reports
scan_complete = false even when every requested probe returned. -/
theorem c5_scan_complete_iff_all_four (m : ScanResults) :
    scan_complete m = true ↔
      ((lookupRes m "ssl").isSome ∧ (lookupRes m "headers").isSome ∧
        (lookupRes m "vulnerabilities").isSome ∧ (lookupRes m "phishing").isSome) := by
  unfold scan_complete scanners_run
  cases h1 : (lookupRes m "ssl").isSome <;>
    cases h2 : (lookupRes m "headers").isSome <;>
      cases h3 : (lookupRes m "vulnerabilities").isSome <;>
        cases h4 : (lookupRes m "phishing").isSome <;>
          simp [List.filter_cons, h1, h2, h3, h4]

/-! ## SecurityScorer recommendation ranking (src/security_scanners/security_scorer.py lines 139-179) -/

/-- A recommendation entry built by _prioritize_recommendations. -/
structure RecItem where
  severity : String
  scanner : String
  message : String
  recommendation : String
  fix : String
  priority : Int
deriving DecidableEq, Repr

/-- SecurityScorer._calculate_priority: severity base (critical 100, high 75,
medium 50, low 25, unrecognized 0) plus the first matching boost of the
if/elif chain (type sqli +20, type xss +15, scanner ssl +10). -/
def calculate_priority (i : Issue) : Int :=
  let base : Int :=
    let s := sevString i
    if s = "critical" then 100
    else if s = "high" then 75
    else if s = "medium" then 50
    else if s = "low" then 25
    else 0
  if i.type = some "sqli" then base + 20
  else if i.type = some "xss" then base + 15
  else if i.scanner = some "ssl" then base + 10
  else base

/-- The rec dictionary built for one issue inside _prioritize_recommendations:
each field defaults as the corresponding .get call does. -/
def mkRecItem (i : Issue) : RecItem :=
  { severity := sevString i
  , scanner := i.scanner.getD "unknown"
  , message := i.message.getD ""
  , recommendation := i.recommendation.getD ""
  , fix := i.fix.getD ""
  , priority := calculate_priority i }

/-- SecurityScorer._prioritize_recommendations: keep only issues that carry a
recommendation key, build their rec entries in order, then stable-sort by
priority descending (list.sort with reverse=True). -/
def prioritize_recommendations (issues : List Issue) : List RecItem :=
  List.insertionSort (fun x y => y.priority ≤ x.priority)
    ((issues.filter (fun i => i.recommendation.isSome)).map mkRecItem)

/-- The top_recommendations key: the first 10 ranked recommendations, computed
over the aggregated all_issues list. -/
def top_recommendations (m : ScanResults) : List RecItem :=
  (prioritize_recommendations (all_issues m)).take 10

/-- The results mapping of a scan in which every probe failed: the three
network probes raised inside their wrappers and the phishing probe failed
internally. -/
def allFailedResults : ScanResults :=
  [("ssl", ssl_scan_error_result "connection refused")
  , ("headers", headers_scan_error_result "connection refused")
  , ("vulnerabilities", vulnerability_scan_error_result "connection refused")
  , ("phishing", phishing_scan_error_result "connection refused")]

/-- C10 (confirmed): every ranked recommendation comes from an aggregated
issue that carries a recommendation key; if no aggregated issue carries one
(as with the synthetic failure issues, which have only severity and message)
the ranked list is empty; and concretely a scan whose four probes all failed
has an empty top_recommendations list. -/
theorem c10_recommendations_require_field :
    (∀ m : ScanResults,
      (∀ r ∈ top_recommendations m,
          ∃ i ∈ all_issues m, i.recommendation.isSome ∧ r = mkRecItem i) ∧
        ((∀ i ∈ all_issues m, i.recommendation = none) →
          top_recommendations m = [])) ∧
      top_recommendations allFailedResults = [] := by
  constructor
  · intro m
    constructor
    · intro r hr
      have hr2 : r ∈ prioritize_recommendations (all_issues m) :=
        List.mem_of_mem_take hr
      have hr3 : r ∈
          ((all_issues m).filter (fun i => i.recommendation.isSome)).map mkRecItem :=
        (List.perm_insertionSort _ _).mem_iff.mp hr2
      obtain ⟨i, hi, rfl⟩ := List.mem_map.mp hr3
      exact ⟨i, List.mem_of_mem_filter hi, by simpa using List.of_mem_filter hi, rfl⟩
    · intro hnone
      have hfilter : (all_issues m).filter (fun i => i.recommendation.isSome) = [] := by
        rw [List.filter_eq_nil_iff]
        intro i hi
        simp [hnone i hi]
      unfold top_recommendations prioritize_recommendations
      rw [hfilter]
      rfl
  · decide

/-- Witness for the implication inside c10_recommendations_require_field at a
concrete single-probe map whose only issue has no recommendation key. -/
theorem c10_recommendations_require_field_witness :
    top_recommendations [("ssl", ssl_scan_error_result "down")] = [] :=
  (c10_recommendations_require_field.1 [("ssl", ssl_scan_error_result "down")]).2
    (by decide)

/-! ## SecurityScorer.calculate_overall_score (src/security_scanners/security_scorer.py lines 19-55) -/

/-- Python's round-half-to-even applied to a rational. -/
def roundHalfEven (q : ℚ) : Int :=
  if q - ⌊q⌋ < 1/2 then ⌊q⌋
  else if 1/2 < q - ⌊q⌋ then ⌊q⌋ + 1
  else if (2 : Int) ∣ ⌊q⌋ then ⌊q⌋ else ⌊q⌋ + 1

/-- round(x, 1): round to one decimal place. -/
def round1 (q : ℚ) : ℚ := (roundHalfEven (10 * q) : ℚ) / 10

/-- SecurityScorer.SCANNER_WEIGHTS in its source order. -/
def SCANNER_WEIGHTS : List (String × ℚ) :=
  [("ssl", 0.25), ("headers", 0.20), ("vulnerabilities", 0.30), ("phishing", 0.25)]

/-- The loop of calculate_overall_score: accumulate (weighted_score,
total_weight) over the weights, adding score * weight and weight whenever the
scanner is a key of the results mapping and its result has a score key. -/
def scoreFold (m : ScanResults) : ℚ × ℚ :=
  SCANNER_WEIGHTS.foldl
    (fun acc tw =>
      match lookupRes m tw.1 with
      | some r =>
          match r.score with
          | some s => (acc.1 + s * tw.2, acc.2 + tw.2)
          | none => acc
      | none => acc)
    (0, 0)

/-- The overall_score key: round(weighted_score / total_weight, 1) when
total_weight > 0, else 0. -/
def overall_score (m : ScanResults) : ℚ :=
  if 0 < (scoreFold m).2 then round1 ((scoreFold m).1 / (scoreFold m).2) else 0

/-- The weighted probes present in the results mapping, with their weights,
as the claim words it. -/
def presentWeights (m : ScanResults) : List (String × ℚ) :=
  SCANNER_WEIGHTS.filter (fun tw => (lookupRes m tw.1).isSome)

/-- The score a present probe carries in the results mapping. -/
def probeScore (m : ScanResults) (t : String) : ℚ :=
  ((lookupRes m t).bind ProbeResult.score).getD 0

/-- The overall score as the claim words it: the weighted mean of the scores
of the probes present in the map, normalized by the sum of the weights of the
probes actually present, rounded to one decimal place; 0 when no weighted
probe is present. -/
def spec_overall_score (m : ScanResults) : ℚ :=
  if presentWeights m = [] then 0
  else
    round1 (((presentWeights m).map (fun tw => probeScore m tw.1 * tw.2)).sum /
      ((presentWeights m).map (fun tw => tw.2)).sum)

/-- A successful lookup returns the second component of a pair of the list. -/
theorem lookupRes_mem :
    ∀ (m : ScanResults) (k : String) (r : ProbeResult),
      lookupRes m k = some r → ∃ p ∈ m, p.2 = r := by
  intro m
  induction m with
  | nil => intro k r h; exact absurd h (by simp [lookupRes])
  | cons p rest ih =>
      intro k r h
      unfold lookupRes at h
      by_cases hk : p.1 = k
      · rw [if_pos hk] at h
        exact ⟨p, List.mem_cons_self p rest, Option.some_injective _ h⟩
      · rw [if_neg hk] at h
        obtain ⟨q, hq, hqr⟩ := ih k r h
        exact ⟨q, List.mem_cons_of_mem p hq, hqr⟩

/-- Generalized accumulation lemma for calculate_overall_score's loop: when
every present result carries a score, folding any weight list accumulates
exactly the filtered weighted-score sum and the filtered weight sum. -/
theorem scoreFold_accum (m : ScanResults)
    (h : ∀ p ∈ m, (ProbeResult.score p.2).isSome) :
    ∀ (ws : List (String × ℚ)) (acc : ℚ × ℚ),
      ws.foldl
        (fun acc tw =>
          match lookupRes m tw.1 with
          | some r =>
              match r.score with
              | some s => (acc.1 + s * tw.2, acc.2 + tw.2)
              | none => acc
          | none => acc) acc =
      (acc.1 + ((ws.filter (fun tw => (lookupRes m tw.1).isSome)).map
          (fun tw => probeScore m tw.1 * tw.2)).sum,
        acc.2 + ((ws.filter (fun tw => (lookupRes m tw.1).isSome)).map
          (fun tw => tw.2)).sum) := by
  intro ws
  induction ws with
  | nil => intro acc; simp
  | cons tw rest ih =>
      intro acc
      rw [List.foldl_cons, List.filter_cons]
      cases hl : lookupRes m tw.1 with
      | none =>
          have hps : ((lookupRes m tw.1).isSome : Bool) = false := by
            rw [hl]; rfl
          simp only [hl, hps, Bool.false_eq_true, if_false]
          exact ih acc
      | some r =>
          obtain ⟨p, hp, hpr⟩ := lookupRes_mem m tw.1 r hl
          have hsc : r.score.isSome := hpr ▸ h p hp
          obtain ⟨s, hs⟩ := Option.isSome_iff_exists.mp hsc
          have hps : ((lookupRes m tw.1).isSome : Bool) = true := by
            rw [hl]; rfl
          have hscore : probeScore m tw.1 = s := by
            unfold probeScore
            rw [hl, Option.some_bind, hs]
            rfl
          simp only [hl, hs, hps, if_true, List.map_cons, List.sum_cons, hscore]
          rw [ih]
          refine Prod.ext ?_ ?_ <;> simp [hscore] <;> ring

/-- The weight sum over any sublist of present probes is positive exactly when
the sublist is nonempty, because every scanner weight is positive. -/
theorem presentWeights_sum_pos (m : ScanResults) :
    0 < ((presentWeights m).map (fun tw => tw.2)).sum ↔ presentWeights m ≠ [] := by
  have hpos : ∀ x ∈ presentWeights m, 0 < x.2 := by
    intro x hx
    have hx2 : x ∈ SCANNER_WEIGHTS := List.mem_of_mem_filter hx
    fin_cases hx2 <;> norm_num
  have hnonneg : ∀ l : List (String × ℚ), (∀ x ∈ l, 0 < x.2) →
      0 ≤ (l.map (fun tw => tw.2)).sum := by
    intro l
    induction l with
    | nil => intro _; simp
    | cons x xs ih =>
        intro hl
        simp only [List.map_cons, List.sum_cons]
        have h1 := hl x (List.mem_cons_self x xs)
        have h2 := ih (fun y hy => hl y (List.mem_cons_of_mem x hy))
        linarith
  constructor
  · intro hsum hne
    rw [hne] at hsum
    simp at hsum
  · intro hne
    cases he : presentWeights m with
    | nil => exact absurd he hne
    | cons x xs =>
        have h1 : 0 < x.2 := hpos x (he ▸ List.mem_cons_self x xs)
        have h2 : 0 ≤ (xs.map (fun tw => tw.2)).sum :=
          hnonneg xs (fun y hy => hpos y (he ▸ List.mem_cons_of_mem x hy))
        simp only [List.map_cons, List.sum_cons]
        linarith

/-- C2 (confirmed): whenever every result present in the map carries a score,
the scorer's overall_score is the weighted mean of the present probes' scores
with weights ssl 0.25, headers 0.20, vulnerabilities 0.30, phishing 0.25,
normalized by the sum of the weights of the probes actually present, rounded
to one decimal place, and 0 when no weighted probe is present. -/
theorem c2_overall_score_weighted_mean (m : ScanResults)
    (h : ∀ p ∈ m, (ProbeResult.score p.2).isSome) :
    overall_score m = spec_overall_score m := by
  unfold overall_score spec_overall_score
  have hfold := scoreFold_accum m h SCANNER_WEIGHTS (0, 0)
  have hsf : scoreFold m =
      (((presentWeights m).map (fun tw => probeScore m tw.1 * tw.2)).sum,
        ((presentWeights m).map (fun tw => tw.2)).sum) := by
    unfold scoreFold presentWeights
    rw [hfold]
    simp
  rw [hsf]
  by_cases hne : presentWeights m = []
  · rw [if_neg, if_pos hne]
    rw [hne]
    simp
  · rw [if_pos, if_neg hne]
    exact (presentWeights_sum_pos m).mpr hne

/-- Witness for c2_overall_score_weighted_mean on the quick-scan results map,
whose two results both carry scores. -/
theorem c2_overall_score_weighted_mean_witness :
    overall_score quickScanResults = spec_overall_score quickScanResults :=
  c2_overall_score_weighted_mean quickScanResults (by decide)
